import Mathlib

/-!
Verification of the echocheck-web authenticated request pipeline.

This file is a shallow embedding of the client-side token pipeline:
  * `frontend/src/lib/api.ts` — the token storage helpers, the request
    dispatcher and the 401 response interceptor (single-flight refresh
    coordinator with `isRefreshing` / `failedQueue` / `processQueue`);
  * `frontend/src/services/auth.service.ts` — the session facade
    (`verify`, `resendCode`, `loginVerify`, `registerVerify`, `logout`,
    `isAuthenticated`);
  * the auth provider component (`refreshUser` cold-start validation).

The source runs on a single-threaded event loop: every synchronous segment
of JavaScript between two suspension points (awaits / promise callbacks)
executes atomically.  Each such segment is embedded as one total Lean
function from state to state; logically concurrent executions are traces of
such atomic steps, sequenced by a driver (`stepEvent` / `runEvents`).
Network calls and the browser are modelled by their observable effects
(`Action`) and by outcome parameters supplied to the continuation steps.
-/

namespace EchoCheck

/-- JavaScript truthiness of a nullable string (`localStorage.getItem`
result or an optional field): `null` and `""` are falsy, every other
string is truthy. -/
def truthy : Option String → Bool
  | none => false
  | some s => s != ""

/-- The two fixed localStorage slots (`echocheck_access_token`,
`echocheck_refresh_token`).  `none` means the key is absent. -/
structure Storage where
  access : Option String
  refresh : Option String
deriving DecidableEq, Repr

/-- `tokenStorage.getAccessToken` (api.ts line 16). -/
def tokenStorage.getAccessToken (s : Storage) : Option String := s.access

/-- `tokenStorage.getRefreshToken` (api.ts line 17). -/
def tokenStorage.getRefreshToken (s : Storage) : Option String := s.refresh

/-- `tokenStorage.setTokens` (api.ts lines 18-21): stores both keys. -/
def tokenStorage.setTokens (_ : Storage) (accessToken refreshToken : String) : Storage :=
  ⟨some accessToken, some refreshToken⟩

/-- `tokenStorage.clearTokens` (api.ts lines 22-25): removes both keys. -/
def tokenStorage.clearTokens (_ : Storage) : Storage :=
  ⟨none, none⟩

/-- Observable effects of the pipeline: a network request to
`/api/auth/refresh`, the `window.location.href = "/auth"` redirect, the
settlement of a queued promise (`processQueue`), the final rejection
surfaced to a call's original caller, and the re-send of a call through
`api(originalRequest)` with a fresh `Authorization` header. -/
inductive Action where
  | refreshRequest
  | redirect
  | resolveQueued (id : Nat) (token : String)
  | rejectQueued (id : Nat)
  | rejectCaller (id : Nat)
  | retrySend (id : Nat) (token : String)
deriving DecidableEq, Repr

/-- The module-level mutable state of api.ts: the `isRefreshing` flag
(line 39), the `failedQueue` of pending promise handles (lines 40-43,
identified here by call ids), and the localStorage token slots. -/
structure SysState where
  isRefreshing : Bool
  failedQueue : List Nat
  storage : Storage
deriving DecidableEq, Repr

/-- How the 401 branch of the response interceptor disposed of one call. -/
inductive H401Result where
  | rejectedTerminal
  | queued
  | refreshStarted
  | rejectedNoToken
deriving DecidableEq, Repr

/-- The synchronous prefix of the response-error interceptor
(api.ts lines 58-88) for an error with HTTP status 401, for the call
`id` whose config carries `_retry = retryFlag`.  Returns the new module
state, the call's `_retry` flag after the segment, how the call was
disposed of, and the emitted actions.

* `_retry` set: the `if` at line 61 is skipped and the error is
  rejected to the caller unchanged (line 108) — terminal.
* `isRefreshing` true: the call is pushed onto `failedQueue`
  (lines 62-65); note its `_retry` flag is NOT set in this branch.
* otherwise: `_retry := true`, `isRefreshing := true` (lines 75-76);
  if the stored refresh token is falsy, the tokens are cleared, the
  browser is redirected to `/auth` and the original error is rejected
  to the caller (lines 78-83) — note this `return` happens before the
  `try`, so the `finally` at line 103 does not run on this path;
  otherwise the refresh POST is issued (line 86) and the segment
  suspends with the refresh in flight. -/
def on401Error (st : SysState) (id : Nat) (retryFlag : Bool) :
    SysState × Bool × H401Result × List Action :=
  if !retryFlag then
    if st.isRefreshing then
      ({ st with failedQueue := st.failedQueue ++ [id] }, retryFlag, .queued, [])
    else
      let st1 : SysState := { st with isRefreshing := true }
      if !(truthy (tokenStorage.getRefreshToken st1.storage)) then
        ({ st1 with storage := tokenStorage.clearTokens st1.storage },
         true, .rejectedNoToken, [.redirect, .rejectCaller id])
      else
        (st1, true, .refreshStarted, [.refreshRequest])
  else
    (st, retryFlag, .rejectedTerminal, [.rejectCaller id])

/-- `processQueue` (api.ts lines 45-54): settles every queued promise
and empties the queue.  Faithful to the source conditional: each entry is
rejected if `error` is truthy (the call sites pass `null` or a caught
exception object, which is always truthy), resolved if `token` is truthy,
and otherwise dropped unsettled.  Returns the settlement actions in queue
order together with the emptied queue. -/
def processQueue (error : Option String) (token : Option String) (q : List Nat) :
    List Action × List Nat :=
  (q.filterMap (fun id =>
    match error with
    | some _ => some (.rejectQueued id)
    | none =>
      match token with
      | some t => if t != "" then some (.resolveQueued id t) else none
      | none => none),
   [])

/-- Outcome of the awaited `axios.post(/api/auth/refresh)` call:
a new credential pair from `response.data`, or a caught rejection. -/
inductive RefreshOutcome where
  | success (access_token refresh_token : String)
  | failure (err : String)
deriving DecidableEq, Repr

/-- The continuation of the interceptor after the refresh POST settles
(api.ts lines 90-105), run for the triggering call `triggerId`.

* success: `tokenStorage.setTokens` (line 91), `processQueue(null,
  access_token)` (line 92), then the trigger is re-sent with the new
  header (lines 94-97); the `finally` clears `isRefreshing` (line 104).
* failure: `processQueue(refreshError, null)` (line 99), tokens cleared
  (line 100), redirect to `/auth` (line 101), the refresh error is
  rejected to the trigger's caller (line 102); `finally` clears
  `isRefreshing`. -/
def refreshSettled (st : SysState) (triggerId : Nat) (out : RefreshOutcome) :
    SysState × List Action :=
  match out with
  | .success a r =>
    let st1 : SysState := { st with storage := tokenStorage.setTokens st.storage a r }
    let pq := processQueue none (some a) st1.failedQueue
    ({ st1 with failedQueue := pq.2, isRefreshing := false },
     pq.1 ++ [.retrySend triggerId a])
  | .failure e =>
    let pq := processQueue (some e) none st.failedQueue
    ({ st with failedQueue := pq.2,
               storage := tokenStorage.clearTokens st.storage,
               isRefreshing := false },
     pq.1 ++ [.redirect, .rejectCaller triggerId])

/-- One scheduler event on the single-threaded event loop: either some
call's response arrives as a 401 and the response interceptor runs, or
the in-flight refresh POST settles and its continuation runs. -/
inductive Event where
  | fail401 (id : Nat)
  | settle (out : RefreshOutcome)
deriving DecidableEq, Repr

/-- Global trace state: module state of api.ts, the `_retry` flag carried
by each call's config (association list, absent = `undefined` = false),
the id of the call whose refresh is currently in flight, and the log of
emitted actions. -/
structure DriverState where
  sys : SysState
  retryFlags : List (Nat × Bool)
  trigger : Option Nat
  log : List Action
deriving DecidableEq, Repr

/-- Look up a call's `_retry` flag (`undefined` reads as false). -/
def getFlag (fs : List (Nat × Bool)) (id : Nat) : Bool :=
  match fs.find? (fun p => p.1 == id) with
  | some p => p.2
  | none => false

/-- Record a call's `_retry` flag. -/
def setFlag (fs : List (Nat × Bool)) (id : Nat) (b : Bool) : List (Nat × Bool) :=
  (id, b) :: fs.filter (fun p => p.1 != id)

/-- Run one scheduler event. A `settle` event is meaningful only while a
refresh is in flight (`trigger` set). -/
def stepEvent (d : DriverState) (e : Event) : DriverState :=
  match e with
  | .fail401 id =>
    let r := on401Error d.sys id (getFlag d.retryFlags id)
    { sys := r.1,
      retryFlags := setFlag d.retryFlags id r.2.1,
      trigger := if r.2.2.1 == H401Result.refreshStarted then some id else d.trigger,
      log := d.log ++ r.2.2.2 }
  | .settle out =>
    match d.trigger with
    | some t =>
      let r := refreshSettled d.sys t out
      { sys := r.1, retryFlags := d.retryFlags, trigger := none, log := d.log ++ r.2 }
    | none => d

/-- Run a list of scheduler events in order. -/
def runEvents (d : DriverState) (es : List Event) : DriverState :=
  es.foldl stepEvent d

/-- Does this action send call `id` over the network again?  A queued
call is re-sent when its promise is resolved (`api(originalRequest)` in
the `.then` at line 70), the trigger when the refresh continuation
returns `api(originalRequest)` (line 97). -/
def isSendOf (id : Nat) : Action → Bool
  | .retrySend i _ => i == id
  | .resolveQueued i _ => i == id
  | _ => false

/-- Total number of times call `id` is sent over the wire in a trace:
its initial dispatch plus every re-send recorded in the log. -/
def sendCount (id : Nat) (log : List Action) : Nat :=
  1 + log.countP (isSendOf id)

/-- `User` record (auth.service.ts lines 4-9). -/
structure User where
  id : String
  email : String
  is_verified : Bool
  created_at : String
deriving DecidableEq, Repr

/-- `TokenResponse` (auth.service.ts lines 11-16). -/
structure TokenResponse where
  access_token : String
  refresh_token : String
  token_type : String
  expires_in : Nat
deriving DecidableEq, Repr

/-- `AuthResponse` (auth.service.ts lines 18-21). -/
structure AuthResponse where
  user : User
  tokens : TokenResponse
deriving DecidableEq, Repr

/-- The private mutable fields of the `AuthService` singleton
(auth.service.ts lines 34-35): `pendingEmail` (initially `null`) and
`isLogin` (initially false). -/
structure PendingState where
  pendingEmail : Option String
  isLogin : Bool
deriving DecidableEq, Repr

/-- A network request issued by the session facade, identified by
endpoint and payload. -/
inductive ApiRequest where
  | loginVerifyReq (email code : String)
  | registerVerifyReq (email code : String)
  | resendCodeReq (email : String)
deriving DecidableEq, Repr

namespace AuthService

/-- `setPendingCredentials` (auth.service.ts lines 37-40). -/
def setPendingCredentials (_ : PendingState) (email : String) (isLogin : Bool) : PendingState :=
  ⟨some email, isLogin⟩

/-- `clearPendingCredentials` (auth.service.ts lines 46-49). -/
def clearPendingCredentials (_ : PendingState) : PendingState :=
  ⟨none, false⟩

/-- Storage effect of a successful `registerVerify` (auth.service.ts
lines 59-66): persists the returned credential pair. -/
def registerVerify (st : Storage) (resp : AuthResponse) : Storage :=
  tokenStorage.setTokens st resp.tokens.access_token resp.tokens.refresh_token

/-- Storage effect of a successful `loginVerify` (auth.service.ts
lines 76-83): persists the returned credential pair. -/
def loginVerify (st : Storage) (resp : AuthResponse) : Storage :=
  tokenStorage.setTokens st resp.tokens.access_token resp.tokens.refresh_token

/-- `verify` (auth.service.ts lines 85-95): throws when `pendingEmail`
is falsy (`null` or `""`), otherwise dispatches on `isLogin` to the
login- or register-verification endpoint.  `Except.error` embeds the
thrown exception; `Except.ok` carries the one request that is issued
(no request is issued on the error path). -/
def verify (s : PendingState) (code : String) : Except String ApiRequest :=
  match s.pendingEmail with
  | none => .error "No pending verification"
  | some email =>
    if email == "" then .error "No pending verification"
    else if s.isLogin then .ok (.loginVerifyReq email code)
    else .ok (.registerVerifyReq email code)

/-- `resendCode` (auth.service.ts lines 97-105): throws when
`pendingEmail` is falsy, otherwise posts to the resend-code endpoint. -/
def resendCode (s : PendingState) : Except String ApiRequest :=
  match s.pendingEmail with
  | none => .error "No pending email for verification"
  | some email =>
    if email == "" then .error "No pending email for verification"
    else .ok (.resendCodeReq email)

/-- Outcome of the awaited `api.post("/api/auth/logout")` as seen by
`logout`: the promise fulfilled, or it rejected (any failure, including
a 401 handled and re-rejected by the response interceptor). -/
inductive ServerOutcome where
  | ok
  | err
deriving DecidableEq, Repr

/-- `logout` (auth.service.ts lines 112-118): `try { await
api.post("/api/auth/logout") } finally { tokenStorage.clearTokens() }`.
The `finally` always clears both tokens; there is no `catch`, so a
rejection of the server call propagates to `logout`'s caller after the
clear.  Returns the resulting storage and whether `logout` rejects. -/
def logout (st : Storage) (out : ServerOutcome) : Storage × Bool :=
  (tokenStorage.clearTokens st, out == ServerOutcome.err)

/-- `isAuthenticated` (auth.service.ts lines 120-122):
`!!tokenStorage.getAccessToken()`. -/
def isAuthenticated (st : Storage) : Bool :=
  truthy (tokenStorage.getAccessToken st)

end AuthService

/-- React state of the auth provider relevant to cold-start validation:
the `user` state and the `isLoading` flag. -/
structure ProviderState where
  user : Option User
  isLoading : Bool
deriving DecidableEq, Repr

namespace AuthProvider

/-- `refreshUser` from the auth provider component: if the stored access
token is falsy, set `user` to null and stop loading without any network
call; otherwise `await authService.getCurrentUser()` — on success store
the user, and on ANY failure (`catch` with no rethrow) clear the stored
tokens and set `user` to null; `finally` stops loading.  `probe` is the
outcome of the `GET /api/auth/me` call; the function is total: no path
rethrows to the caller. -/
def refreshUser (storage : Storage) (probe : Except String User) (_ : ProviderState) :
    Storage × ProviderState :=
  if !(truthy (tokenStorage.getAccessToken storage)) then
    (storage, ⟨none, false⟩)
  else
    match probe with
    | .ok u => (storage, ⟨some u, false⟩)
    | .error _ => (tokenStorage.clearTokens storage, ⟨none, false⟩)

end AuthProvider

/-! ## Traces used by the claims -/

/-- Fold the 401 branch of the response interceptor over a burst of
first-time failures (every call still has `_retry` unset), starting from
an arbitrary state/action accumulator. -/
def run401sFrom (p : SysState × List Action) (ids : List Nat) : SysState × List Action :=
  ids.foldl (fun acc id =>
    let r := on401Error acc.1 id false
    (r.1, acc.2 ++ r.2.2.2)) p

/-- A burst of first-time 401 failures processed back to back, before
the in-flight refresh (if any) settles. -/
def run401s (st : SysState) (ids : List Nat) : SysState × List Action :=
  run401sFrom (st, []) ids

/-- While `isRefreshing` is set, every further first-time 401 failure is
appended to `failedQueue` and emits no action at all. -/
theorem run401sFrom_refreshing (ids : List Nat) :
    ∀ (st : SysState) (acc : List Action), st.isRefreshing = true →
      run401sFrom (st, acc) ids
        = ({ st with failedQueue := st.failedQueue ++ ids }, acc) := by
  induction ids with
  | nil =>
    intro st acc h
    simp [run401sFrom]
  | cons id ids ih =>
    intro st acc h
    have h1 : on401Error st id false
        = ({ st with failedQueue := st.failedQueue ++ [id] }, false, .queued, []) := by
      simp [on401Error, h]
    simp only [run401sFrom, List.foldl_cons, h1]
    have h2 := ih { st with failedQueue := st.failedQueue ++ [id] } (acc ++ []) (by simp [h])
    simp only [run401sFrom] at h2
    rw [h2]
    simp

/-- Initial trace state: idle pipeline with a stored (stale) credential
pair, no retry marks, empty action log. -/
def d0 : DriverState := ⟨⟨false, [], ⟨some "a0", some "r0"⟩⟩, [], none, []⟩

/-- Interleaving: calls 0 and 1 both receive a 401 (0 triggers the
refresh, 1 is queued); the refresh succeeds and both are replayed;
call 1's replay 401s again; the second refresh — now triggered by
call 1 itself — succeeds and call 1 is sent a third time. -/
def thirdSendTrace : List Event :=
  [.fail401 0, .fail401 1, .settle (.success "a1" "r1"),
   .fail401 1, .settle (.success "a2" "r2")]

/-! ## Claims -/

/-- C1: starting from an idle pipeline (`isRefreshing = false`) with a
refresh token in storage, a burst of N ≥ 2 first-time 401 failures
emits exactly one action — the single `/api/auth/refresh` request,
issued by the first failing call, which also sets the flag — and every
later call of the burst is appended to the pending queue in arrival
order. -/
theorem single_flight_refresh (st : SysState) (id0 : Nat) (rest : List Nat)
    (hN : rest ≠ []) (hidle : st.isRefreshing = false)
    (htok : truthy st.storage.refresh = true) :
    (run401s st (id0 :: rest)).2 = [Action.refreshRequest] ∧
    (run401s st (id0 :: rest)).1.isRefreshing = true ∧
    (run401s st (id0 :: rest)).1.failedQueue = st.failedQueue ++ rest := by
  have h1 : on401Error st id0 false
      = ({ st with isRefreshing := true }, true, .refreshStarted, [.refreshRequest]) := by
    simp [on401Error, hidle, tokenStorage.getRefreshToken, htok]
  have h2 := run401sFrom_refreshing rest { st with isRefreshing := true }
      ([] ++ [Action.refreshRequest]) (by simp)
  simp only [run401s, run401sFrom, List.foldl_cons, h1] at h2 ⊢
  rw [h2]
  simp

/-- C1 witness: three concurrent 401s from an idle, token-holding state. -/
theorem single_flight_refresh_witness :
    ([2, 3] ≠ ([] : List Nat)) ∧
    (run401s ⟨false, [], ⟨some "a0", some "r0"⟩⟩ (1 :: [2, 3])).2 = [Action.refreshRequest] ∧
    (run401s ⟨false, [], ⟨some "a0", some "r0"⟩⟩ (1 :: [2, 3])).1.isRefreshing = true ∧
    (run401s ⟨false, [], ⟨some "a0", some "r0"⟩⟩ (1 :: [2, 3])).1.failedQueue = [] ++ [2, 3] :=
  ⟨by decide,
   single_flight_refresh ⟨false, [], ⟨some "a0", some "r0"⟩⟩ 1 [2, 3]
     (by decide) rfl (by decide)⟩

/-- C2 counterexample: in the trace `thirdSendTrace`, call 1 has been
retried once after the first refresh (send count 2 after three events),
then 401s again — yet it is never surfaced to its caller as a terminal
error (`rejectCaller 1` never occurs), it triggers a second refresh
instead, and it is sent a third time (final send count 3).  The claim
"never sent a third time" is therefore false for queued calls. -/
theorem retry_limit_counterexample :
    sendCount 1 (runEvents d0 (thirdSendTrace.take 3)).log = 2 ∧
    sendCount 1 (runEvents d0 thirdSendTrace).log = 3 ∧
    (runEvents d0 thirdSendTrace).log.count (Action.rejectCaller 1) = 0 ∧
    (runEvents d0 thirdSendTrace).log.count Action.refreshRequest = 2 := by
  decide

/-- C2 amended: only a call carrying the `_retry` mark — i.e. one that
previously triggered a refresh itself — is surfaced terminally on a
further 401 and never re-sent; a call queued behind another call's
refresh keeps `_retry` unset, so its replay's 401 is queued or starts a
new refresh cycle rather than being terminal, and the call can be sent
a third time. -/
theorem retry_limit_amended :
    (∀ (st : SysState) (id : Nat),
      on401Error st id true
        = (st, true, H401Result.rejectedTerminal, [Action.rejectCaller id])) ∧
    (∀ (st : SysState) (id : Nat), st.isRefreshing = true →
      (on401Error st id false).2.1 = false ∧
      (on401Error st id false).2.2.1 = H401Result.queued) := by
  constructor
  · intro st id
    rfl
  · intro st id h
    simp [on401Error, h]

/-- C2 amended witness: a marked call is rejected terminally; a queued
call keeps its mark unset. -/
theorem retry_limit_amended_witness :
    on401Error ⟨false, [], ⟨some "a0", some "r0"⟩⟩ 5 true
      = (⟨false, [], ⟨some "a0", some "r0"⟩⟩, true,
         H401Result.rejectedTerminal, [Action.rejectCaller 5]) ∧
    (on401Error ⟨true, [], ⟨some "a0", some "r0"⟩⟩ 6 false).2.1 = false ∧
    (on401Error ⟨true, [], ⟨some "a0", some "r0"⟩⟩ 6 false).2.2.1 = H401Result.queued :=
  ⟨retry_limit_amended.1 ⟨false, [], ⟨some "a0", some "r0"⟩⟩ 5,
   retry_limit_amended.2 ⟨true, [], ⟨some "a0", some "r0"⟩⟩ 6 rfl⟩

/-- `filterMap` with an everywhere-defined settlement function is `map`. -/
theorem filterMap_some_eq_map (f : Nat → Action) (q : List Nat) :
    q.filterMap (fun id => some (f id)) = q.map f := by
  induction q with
  | nil => rfl
  | cons x xs ih => simp [List.filterMap_cons, ih]

/-- Settling the queue with a truthy error rejects every entry, one
action per queue entry, and empties the queue. -/
theorem processQueue_error (e : String) (q : List Nat) :
    processQueue (some e) none q = (q.map Action.rejectQueued, []) := by
  simp only [processQueue, Prod.mk.injEq, and_true]
  exact filterMap_some_eq_map Action.rejectQueued q

/-- Settling the queue with a truthy token resolves every entry with
that token, one action per queue entry, and empties the queue. -/
theorem processQueue_token (a : String) (ha : a ≠ "") (q : List Nat) :
    processQueue none (some a) q
      = (q.map (fun id => Action.resolveQueued id a), []) := by
  have hb : (a != "") = true := by simpa using ha
  simp only [processQueue, hb, if_true, Prod.mk.injEq, and_true]
  exact filterMap_some_eq_map (fun id => Action.resolveQueued id a) q

/-- C3: when the refresh settles, every entry of the pending queue is
settled exactly once — all resolved with the new (non-empty) access
token on success, all rejected with the refresh error on failure — and
the queue is left empty; on failure storage is cleared and exactly one
redirect is emitted, with the trigger rejected the same way. -/
theorem queue_drain_complete (st : SysState) (t : Nat) (a r e : String)
    (ha : a ≠ "") :
    refreshSettled st t (.success a r)
      = (⟨false, [], ⟨some a, some r⟩⟩,
         st.failedQueue.map (fun id => Action.resolveQueued id a)
           ++ [Action.retrySend t a]) ∧
    refreshSettled st t (.failure e)
      = (⟨false, [], ⟨none, none⟩⟩,
         st.failedQueue.map Action.rejectQueued
           ++ [Action.redirect, Action.rejectCaller t]) := by
  constructor
  · simp [refreshSettled, processQueue_token a ha, tokenStorage.setTokens]
  · simp [refreshSettled, processQueue_error, tokenStorage.clearTokens]

/-- C3 witness: a two-entry queue drained by a successful and by a
failed refresh. -/
theorem queue_drain_complete_witness :
    ("a1" ≠ "") ∧
    refreshSettled ⟨true, [4, 5], ⟨some "a0", some "r0"⟩⟩ 3 (.success "a1" "r1")
      = (⟨false, [], ⟨some "a1", some "r1"⟩⟩,
         [Action.resolveQueued 4 "a1", Action.resolveQueued 5 "a1",
          Action.retrySend 3 "a1"]) ∧
    refreshSettled ⟨true, [4, 5], ⟨some "a0", some "r0"⟩⟩ 3 (.failure "boom")
      = (⟨false, [], ⟨none, none⟩⟩,
         [Action.rejectQueued 4, Action.rejectQueued 5,
          Action.redirect, Action.rejectCaller 3]) :=
  ⟨by decide,
   (queue_drain_complete ⟨true, [4, 5], ⟨some "a0", some "r0"⟩⟩ 3 "a1" "r1" "boom"
     (by decide)).1,
   (queue_drain_complete ⟨true, [4, 5], ⟨some "a0", some "r0"⟩⟩ 3 "a1" "r1" "boom"
     (by decide)).2⟩

/-- C4, evaluated at the failing input: a single call 401s while the
pipeline is idle and no refresh token is stored.  The handler sets
`isRefreshing := true` and then returns before the `try`, so the
`finally` that resets the flag never runs: the 401-recovery path
terminates with no refresh in flight yet the flag still true, and a
later first-time 401 is queued (behind nothing) instead of starting a
new refresh. -/
theorem refresh_flag_stuck :
    on401Error ⟨false, [], ⟨some "a0", none⟩⟩ 0 false
      = (⟨true, [], ⟨none, none⟩⟩, true, H401Result.rejectedNoToken,
         [Action.redirect, Action.rejectCaller 0]) ∧
    (on401Error ⟨true, [], ⟨none, none⟩⟩ 1 false).2.2.1 = H401Result.queued := by
  decide

/-- C5: a first-time 401 from an idle pipeline with no stored refresh
token rejects the caller immediately with the authentication error,
clears both stored tokens, redirects to the sign-in entry point, and
issues no request to `/api/auth/refresh`. -/
theorem missing_refresh_token_rejects (st : SysState) (id : Nat)
    (hidle : st.isRefreshing = false) (hnone : st.storage.refresh = none) :
    (on401Error st id false).2.2.1 = H401Result.rejectedNoToken ∧
    (on401Error st id false).2.2.2 = [Action.redirect, Action.rejectCaller id] ∧
    (on401Error st id false).1.storage = ⟨none, none⟩ ∧
    Action.refreshRequest ∉ (on401Error st id false).2.2.2 := by
  have h : on401Error st id false
      = ({ st with isRefreshing := true, storage := ⟨none, none⟩ },
         true, .rejectedNoToken, [.redirect, .rejectCaller id]) := by
    simp [on401Error, hidle, tokenStorage.getRefreshToken, tokenStorage.clearTokens,
      truthy, hnone]
  rw [h]
  simp

/-- C5 witness: concrete idle state holding only an access token. -/
theorem missing_refresh_token_rejects_witness :
    (⟨false, [], ⟨some "a0", none⟩⟩ : SysState).isRefreshing = false ∧
    ((on401Error ⟨false, [], ⟨some "a0", none⟩⟩ 7 false).2.2.1
        = H401Result.rejectedNoToken ∧
      (on401Error ⟨false, [], ⟨some "a0", none⟩⟩ 7 false).2.2.2
        = [Action.redirect, Action.rejectCaller 7] ∧
      (on401Error ⟨false, [], ⟨some "a0", none⟩⟩ 7 false).1.storage = ⟨none, none⟩ ∧
      Action.refreshRequest ∉ (on401Error ⟨false, [], ⟨some "a0", none⟩⟩ 7 false).2.2.2) :=
  ⟨rfl, missing_refresh_token_rejects ⟨false, [], ⟨some "a0", none⟩⟩ 7 rfl rfl⟩

/-- C6: after a successful refresh, login verification or registration
verification both token slots are populated; after a clear — including
the refresh-failure path — both are absent; `setTokens`/`clearTokens`
never leave one slot without the other. -/
theorem credential_atomicity (st : SysState) (stor : Storage) (t : Nat)
    (a r e : String) (resp : AuthResponse) :
    ((refreshSettled st t (.success a r)).1.storage.access.isSome
      ∧ (refreshSettled st t (.success a r)).1.storage.refresh.isSome) ∧
    ((AuthService.loginVerify stor resp).access.isSome
      ∧ (AuthService.loginVerify stor resp).refresh.isSome) ∧
    ((AuthService.registerVerify stor resp).access.isSome
      ∧ (AuthService.registerVerify stor resp).refresh.isSome) ∧
    ((tokenStorage.setTokens stor a r).access.isSome
      ∧ (tokenStorage.setTokens stor a r).refresh.isSome) ∧
    ((tokenStorage.clearTokens stor).access = none
      ∧ (tokenStorage.clearTokens stor).refresh = none) ∧
    ((refreshSettled st t (.failure e)).1.storage.access = none
      ∧ (refreshSettled st t (.failure e)).1.storage.refresh = none) := by
  simp [refreshSettled, AuthService.loginVerify, AuthService.registerVerify,
    tokenStorage.setTokens, tokenStorage.clearTokens]

/-- C7 counterexample: already signed out (both slots empty), the
logout POST rejects (e.g. the unauthenticated request is refused with a
401, which the interceptor re-rejects for lack of a refresh token).
`logout` clears storage in its `finally`, but — having no `catch` — it
propagates the rejection, so it does throw to its caller. -/
theorem logout_no_throw_counterexample :
    AuthService.logout ⟨none, none⟩ AuthService.ServerOutcome.err
      = (⟨none, none⟩, true) := by
  rfl

/-- C7 amended: sign-out clears both stored tokens regardless of the
server call's outcome, and it rejects to its caller exactly when the
server call rejects — so a signed-out sign-out clears storage but may
still propagate the server error. -/
theorem logout_clears_regardless (st : Storage) (out : AuthService.ServerOutcome) :
    (AuthService.logout st out).1 = ⟨none, none⟩ ∧
    ((AuthService.logout st out).2 = true ↔ out = AuthService.ServerOutcome.err) := by
  cases out <;> simp [AuthService.logout, tokenStorage.clearTokens]

/-- C8: during cold-start validation with a stored access token, if the
fetch-current-user probe fails for any reason, `refreshUser` clears the
stored credentials and sets the user state to null (loading finished);
the catch swallows the failure, so nothing is rethrown to the caller —
the function returns this state normally. -/
theorem probe_failure_not_authenticated (stor : Storage) (s : ProviderState)
    (e : String) (h : truthy stor.access = true) :
    AuthProvider.refreshUser stor (.error e) s = (⟨none, none⟩, ⟨none, false⟩) := by
  simp [AuthProvider.refreshUser, tokenStorage.getAccessToken, h,
    tokenStorage.clearTokens]

/-- C8 witness: concrete storage with an access token, failed probe. -/
theorem probe_failure_not_authenticated_witness :
    truthy (⟨some "a0", some "r0"⟩ : Storage).access = true ∧
    AuthProvider.refreshUser ⟨some "a0", some "r0"⟩ (.error "401") ⟨none, true⟩
      = (⟨none, none⟩, ⟨none, false⟩) :=
  ⟨by decide,
   probe_failure_not_authenticated ⟨some "a0", some "r0"⟩ ⟨none, true⟩ "401" (by decide)⟩

/-- C9: `isAuthenticated` ignores the refresh-token slot entirely and
returns true exactly when a (non-empty) access token is stored; token
contents are never validated, so an expired access token still reports
authenticated. -/
theorem is_authenticated_iff_access (a r r2 : Option String) :
    (AuthService.isAuthenticated ⟨a, r⟩ = AuthService.isAuthenticated ⟨a, r2⟩) ∧
    (AuthService.isAuthenticated ⟨a, r⟩ = true ↔ ∃ t, a = some t ∧ t ≠ "") := by
  constructor
  · rfl
  · cases a with
    | none => simp [AuthService.isAuthenticated, truthy, tokenStorage.getAccessToken]
    | some t => simp [AuthService.isAuthenticated, truthy, tokenStorage.getAccessToken]

/-- C10: with no pending email (never set, or cleared), `verify` and
`resendCode` reject with their respective errors and issue no request
(`Except.error` carries no `ApiRequest`); with a pending email, `verify`
dispatches on the stored `isLogin` flag to the login- or
register-verification endpoint. -/
theorem verify_requires_pending (b : Bool) (code : String) (s : PendingState)
    (email : String) (he : email ≠ "") :
    AuthService.verify ⟨none, b⟩ code = .error "No pending verification" ∧
    AuthService.resendCode ⟨none, b⟩ = .error "No pending email for verification" ∧
    AuthService.verify (AuthService.clearPendingCredentials s) code
      = .error "No pending verification" ∧
    AuthService.resendCode (AuthService.clearPendingCredentials s)
      = .error "No pending email for verification" ∧
    AuthService.verify ⟨some email, true⟩ code = .ok (.loginVerifyReq email code) ∧
    AuthService.verify ⟨some email, false⟩ code = .ok (.registerVerifyReq email code) := by
  have hb : (email == "") = false := by simpa using he
  refine ⟨rfl, rfl, rfl, rfl, ?_, ?_⟩ <;> simp [AuthService.verify, hb]

/-- C10 witness: a concrete pending email dispatched on the login flag. -/
theorem verify_requires_pending_witness :
    ("u@example.com" ≠ "") ∧
    AuthService.verify ⟨some "u@example.com", true⟩ "123456"
      = .ok (.loginVerifyReq "u@example.com" "123456") :=
  ⟨by decide,
   (verify_requires_pending true "123456" ⟨none, false⟩ "u@example.com"
     (by decide)).2.2.2.2.1⟩

end EchoCheck
